import Mathlib

/-!
Verification development for the streaming-chat-api-langgraph repository.

Shallow embedding of the conversation-orchestration graph
(src/chat_agent/graph.py), the classifier-output parser and history
compactor (src/chat_agent/utils.py), the persistence helper
(src/chat_agent/db_helper.py) and the HTTP endpoint (src/app.py).

Modelling conventions:
- Python exceptions raised by external collaborators (the LLM client)
  are modelled as `Except String` values supplied as oracle inputs;
  the adapter result dictionaries (tools, history fetch) are modelled
  as sum types mirroring their status fields.
- The mutable `ChatAgentState` TypedDict is an immutable record passed
  through the node functions; a missing/None string key is modelled as
  `Option String` (with Python falsiness `None`/`""` checked via
  `Option.getD ""`), the always-appended `error` list as `List String`
  (Python `None`-or-missing and `[]` are both falsy, so the empty list
  models both).
- `uuid.uuid4()` session allocation is modelled by a deterministic
  fresh-name supply threaded as a counter; message ids and timestamps
  are irrelevant to every claim and modelled as `""`.
- Stream-writer emissions are collected into an explicit event list
  returned next to the state, in emission order.
-/

set_option maxRecDepth 8192

/-! ## Routes and router output (src/chat_agent/models.py) -/

inductive Route
  | aging_biomarker_tool
  | longevity_clinical_trial_tool
  | general_knowledge
  | rejection_handler
deriving DecidableEq, Repr

def routeStr : Route → String
  | Route.aging_biomarker_tool => "aging_biomarker_tool"
  | Route.longevity_clinical_trial_tool => "longevity_clinical_trial_tool"
  | Route.general_knowledge => "general_knowledge"
  | Route.rejection_handler => "rejection_handler"

structure RouterOutput where
  decision : Route
  reasoning : String
  rejection_message : Option String := none
  error : Option String := none
deriving DecidableEq, Repr

/-! ## Python string helpers used by src/chat_agent/utils.py -/

/-- Python `str` whitespace (the characters stripped by `str.strip()` and
matched by `\s` in `re`, restricted to ASCII as produced by the code). -/
def pyWsChar (c : Char) : Bool :=
  c = ' ' || c = '\t' || c = '\n' || c = '\r' || c = '\x0b' || c = '\x0c'

/-- Model of Python `str.strip()`. -/
def pyStrip (s : String) : String :=
  String.mk (((s.data.dropWhile pyWsChar).reverse.dropWhile pyWsChar).reverse)

def pySplitGo (sep : List Char) : Nat → List Char → List Char → List (List Char)
  | 0, cs, cur => [cur.reverse ++ cs]
  | _ + 1, [], cur => [cur.reverse]
  | fuel + 1, c :: rest, cur =>
    if sep.isPrefixOf (c :: rest) then
      cur.reverse :: pySplitGo sep fuel (List.drop sep.length (c :: rest)) []
    else
      pySplitGo sep fuel rest (c :: cur)

/-- Model of Python `s.split(sep)` for a non-empty separator. -/
def pySplit (s sep : String) : List String :=
  (pySplitGo sep.data (s.data.length + 1) s.data []).map String.mk

/-- Python `xs[i]` on the split results; the source only indexes positions
that are guaranteed to exist by the preceding `startswith` guards. -/
def pyGet (xs : List String) (i : Nat) : String :=
  xs.getD i ""

/-- Model of Python `s.startswith(pre)`. -/
def pyStartsWith (s pre : String) : Bool :=
  pre.data.isPrefixOf s.data

/-! ## JSON values and a model of `json.loads` (strict JSON grammar) -/

inductive JsonVal
  | null
  | bool (b : Bool)
  | num (raw : String)
  | str (s : String)
  | arr (xs : List JsonVal)
  | obj (kvs : List (String × JsonVal))

/-- JSON insignificant whitespace. -/
def jsonWs (c : Char) : Bool :=
  c = ' ' || c = '\t' || c = '\n' || c = '\r'

def jskipWs : List Char → List Char
  | [] => []
  | c :: cs => if jsonWs c then jskipWs cs else c :: cs

def hexDigitVal (c : Char) : Option Nat :=
  if '0' ≤ c ∧ c ≤ '9' then some (c.toNat - '0'.toNat)
  else if 'a' ≤ c ∧ c ≤ 'f' then some (c.toNat - 'a'.toNat + 10)
  else if 'A' ≤ c ∧ c ≤ 'F' then some (c.toNat - 'A'.toNat + 10)
  else none

/-- JSON string body after the opening quote; strict like `json.loads`
(escapes decoded, raw control characters rejected). -/
def parseJStr : Nat → List Char → List Char → Except String (String × List Char)
  | 0, _, _ => Except.error "string fuel exhausted"
  | fuel + 1, acc, cs =>
    match cs with
    | [] => Except.error "Unterminated string"
    | '"' :: rest => Except.ok (String.mk acc.reverse, rest)
    | '\\' :: rest =>
      (match rest with
       | '"' :: r => parseJStr fuel ('"' :: acc) r
       | '\\' :: r => parseJStr fuel ('\\' :: acc) r
       | '/' :: r => parseJStr fuel ('/' :: acc) r
       | 'b' :: r => parseJStr fuel ('\x08' :: acc) r
       | 'f' :: r => parseJStr fuel ('\x0c' :: acc) r
       | 'n' :: r => parseJStr fuel ('\n' :: acc) r
       | 'r' :: r => parseJStr fuel ('\r' :: acc) r
       | 't' :: r => parseJStr fuel ('\t' :: acc) r
       | 'u' :: h1 :: h2 :: h3 :: h4 :: r =>
         (match hexDigitVal h1, hexDigitVal h2, hexDigitVal h3, hexDigitVal h4 with
          | some a, some b, some c, some d =>
            parseJStr fuel (Char.ofNat (((a * 16 + b) * 16 + c) * 16 + d) :: acc) r
          | _, _, _, _ => Except.error "Invalid hex escape")
       | _ => Except.error "Invalid escape")
    | c :: rest =>
      if c.toNat < 32 then Except.error "Invalid control character"
      else parseJStr fuel (c :: acc) rest

def spanDigits : List Char → List Char × List Char
  | [] => ([], [])
  | c :: cs =>
    if c.isDigit then
      let p := spanDigits cs
      (c :: p.1, p.2)
    else ([], c :: cs)

def parseJNumFrac : List Char → Except String (List Char × List Char)
  | '.' :: r =>
    let p := spanDigits r
    if p.1 = [] then Except.error "Expecting digit after decimal point"
    else Except.ok ('.' :: p.1, p.2)
  | cs => Except.ok ([], cs)

def parseJNumExp : List Char → Except String (List Char × List Char)
  | [] => Except.ok ([], [])
  | c :: r =>
    if c = 'e' ∨ c = 'E' then
      let sp : List Char × List Char :=
        match r with
        | '+' :: rr => (['+'], rr)
        | '-' :: rr => (['-'], rr)
        | _ => ([], r)
      let p := spanDigits sp.2
      if p.1 = [] then Except.error "Expecting digit in exponent"
      else Except.ok (c :: sp.1 ++ p.1, p.2)
    else Except.ok ([], c :: r)

/-- JSON number literal (kept as its raw text: no claim depends on numeric
semantics, only on the value's JSON type). -/
def parseJNum (cs : List Char) : Except String (String × List Char) :=
  let sp : List Char × List Char :=
    match cs with
    | '-' :: r => (['-'], r)
    | _ => ([], cs)
  match sp.2 with
  | [] => Except.error "Expecting value"
  | c :: r1 =>
    if ¬ c.isDigit then Except.error "Expecting value"
    else
      let ip : List Char × List Char :=
        if c = '0' then ([c], r1)
        else
          let p := spanDigits r1
          (c :: p.1, p.2)
      match parseJNumFrac ip.2 with
      | Except.error e => Except.error e
      | Except.ok (fr, r3) =>
        match parseJNumExp r3 with
        | Except.error e => Except.error e
        | Except.ok (ex, r4) => Except.ok (String.mk (sp.1 ++ ip.1 ++ fr ++ ex), r4)

mutual

def parseJVal : Nat → List Char → Except String (JsonVal × List Char)
  | 0, _ => Except.error "json fuel exhausted"
  | fuel + 1, cs =>
    match jskipWs cs with
    | [] => Except.error "Expecting value"
    | 'n' :: 'u' :: 'l' :: 'l' :: r => Except.ok (JsonVal.null, r)
    | 't' :: 'r' :: 'u' :: 'e' :: r => Except.ok (JsonVal.bool true, r)
    | 'f' :: 'a' :: 'l' :: 's' :: 'e' :: r => Except.ok (JsonVal.bool false, r)
    | '"' :: r =>
      (match parseJStr (r.length + 1) [] r with
       | Except.error e => Except.error e
       | Except.ok (s, r2) => Except.ok (JsonVal.str s, r2))
    | '[' :: r =>
      (match jskipWs r with
       | ']' :: r2 => Except.ok (JsonVal.arr [], r2)
       | r2 =>
         match parseJArr fuel r2 with
         | Except.error e => Except.error e
         | Except.ok (xs, r3) => Except.ok (JsonVal.arr xs, r3))
    | '{' :: r =>
      (match jskipWs r with
       | '}' :: r2 => Except.ok (JsonVal.obj [], r2)
       | r2 =>
         match parseJObj fuel r2 with
         | Except.error e => Except.error e
         | Except.ok (kvs, r3) => Except.ok (JsonVal.obj kvs, r3))
    | cs2 =>
      match parseJNum cs2 with
      | Except.error e => Except.error e
      | Except.ok (raw, r) => Except.ok (JsonVal.num raw, r)

def parseJArr : Nat → List Char → Except String (List JsonVal × List Char)
  | 0, _ => Except.error "json fuel exhausted"
  | fuel + 1, cs =>
    match parseJVal fuel cs with
    | Except.error e => Except.error e
    | Except.ok (v, r) =>
      match jskipWs r with
      | ',' :: r2 =>
        (match parseJArr fuel r2 with
         | Except.error e => Except.error e
         | Except.ok (vs, r3) => Except.ok (v :: vs, r3))
      | ']' :: r2 => Except.ok ([v], r2)
      | _ => Except.error "Expecting delimiter"

def parseJObj : Nat → List Char → Except String (List (String × JsonVal) × List Char)
  | 0, _ => Except.error "json fuel exhausted"
  | fuel + 1, cs =>
    match jskipWs cs with
    | '"' :: r =>
      (match parseJStr (r.length + 1) [] r with
       | Except.error e => Except.error e
       | Except.ok (k, r2) =>
         match jskipWs r2 with
         | ':' :: r3 =>
           (match parseJVal fuel r3 with
            | Except.error e => Except.error e
            | Except.ok (v, r4) =>
              match jskipWs r4 with
              | ',' :: r5 =>
                (match parseJObj fuel r5 with
                 | Except.error e => Except.error e
                 | Except.ok (kvs, r6) => Except.ok ((k, v) :: kvs, r6))
              | '}' :: r5 => Except.ok ([(k, v)], r5)
              | _ => Except.error "Expecting delimiter")
         | _ => Except.error "Expecting colon delimiter")
    | _ => Except.error "Expecting property name in double quotes"

end

/-- Model of Python `json.loads`: a full parse of the input with only
trailing whitespace remaining. -/
def jsonLoads (s : String) : Except String JsonVal :=
  match parseJVal (2 * s.length + 8) s.data with
  | Except.error e => Except.error e
  | Except.ok (j, rest) => if jskipWs rest = [] then Except.ok j else Except.error "Extra data"

/-! ## parse_routing_decision (src/chat_agent/utils.py lines 17-56) -/

/-- The replacement performed by `re.sub(r',\s*(?=[}\]])', '', text)`:
every comma followed by optional whitespace and a closing bracket is
removed together with that whitespace (the bracket is a lookahead and
stays). -/
def removeTrailingCommasAux : Nat → List Char → List Char
  | 0, cs => cs
  | _ + 1, [] => []
  | fuel + 1, ',' :: rest =>
    let r := rest.dropWhile pyWsChar
    match r with
    | '}' :: _ => removeTrailingCommasAux fuel r
    | ']' :: _ => removeTrailingCommasAux fuel r
    | _ => ',' :: removeTrailingCommasAux fuel rest
  | fuel + 1, c :: rest => c :: removeTrailingCommasAux fuel rest

def removeTrailingCommas (s : String) : String :=
  String.mk (removeTrailingCommasAux (s.data.length + 1) s.data)

/-- The code-fence stripping at the top of `parse_routing_decision`
(the `startswith`/`split` chain of the source, applied after `strip`). -/
def stripFences (t : String) : String :=
  if pyStartsWith t "```json" then
    pyStrip (pyGet (pySplit (pyGet (pySplit t "```json") 1) "```") 0)
  else if pyStartsWith t "```" then
    pyStrip (pyGet (pySplit (pyGet (pySplit t "```") 1) "```") 0)
  else t

/-- Lookup in a parsed JSON object; Python dicts built by `json.loads`
keep the last occurrence of a duplicated key. -/
def jLookup (kvs : List (String × JsonVal)) (k : String) : Option JsonVal :=
  match (kvs.filter (fun p => p.1 = k)).getLast? with
  | some p => some p.2
  | none => none

/-- Pydantic validation of the `decision` Literal field. -/
def decodeRoute : JsonVal → Option Route
  | JsonVal.str "aging_biomarker_tool" => some Route.aging_biomarker_tool
  | JsonVal.str "longevity_clinical_trial_tool" => some Route.longevity_clinical_trial_tool
  | JsonVal.str "general_knowledge" => some Route.general_knowledge
  | JsonVal.str "rejection_handler" => some Route.rejection_handler
  | _ => none

/-- Pydantic validation of an `Optional[str]` field: missing or `null`
is `None`, a JSON string is accepted, anything else is a validation
error. -/
def asOptStr : Option JsonVal → Except String (Option String)
  | none => Except.ok none
  | some JsonVal.null => Except.ok none
  | some (JsonVal.str s) => Except.ok (some s)
  | some _ => Except.error "Input should be a valid string"

/-- `RouterOutput(**data)`: `data` must be a mapping, `decision` a valid
route literal, `reasoning` a string, the two optional fields strings or
null; extra keys are ignored (pydantic default). -/
def validateRouterOutput : JsonVal → Except String RouterOutput
  | JsonVal.obj kvs =>
    (match jLookup kvs "decision" with
     | none => Except.error "Field required: decision"
     | some dv =>
       match decodeRoute dv with
       | none => Except.error "Input should be a valid routing decision"
       | some d =>
         match jLookup kvs "reasoning" with
         | none => Except.error "Field required: reasoning"
         | some (JsonVal.str rs) =>
           (match asOptStr (jLookup kvs "rejection_message") with
            | Except.error e => Except.error e
            | Except.ok rm =>
              match asOptStr (jLookup kvs "error") with
              | Except.error e => Except.error e
              | Except.ok er =>
                Except.ok { decision := d, reasoning := rs, rejection_message := rm, error := er })
         | some _ => Except.error "Input should be a valid string")
  | _ => Except.error "argument after ** must be a mapping"

/-- The body of `parse_routing_decision` up to its enclosing
`try`/`except`: strip and unfence the text, strict `json.loads`, on a
decode error retry on the trailing-comma-sanitized text, then validate;
any failure is an `Except.error` (the Python exception reaching the
outer handler). -/
def parseRoutingCore (llm_response : String) : Except String RouterOutput :=
  let t := stripFences (pyStrip llm_response)
  match jsonLoads t with
  | Except.ok j => validateRouterOutput j
  | Except.error _ =>
    match jsonLoads (removeTrailingCommas t) with
    | Except.ok j => validateRouterOutput j
    | Except.error e => Except.error e

/-- `parse_routing_decision`: the outer `except` converts any failure
into the fixed `rejection_handler` fallback with the failure detail. -/
def parse_routing_decision (llm_response : String) : RouterOutput :=
  match parseRoutingCore llm_response with
  | Except.ok r => r
  | Except.error e =>
    { decision := Route.rejection_handler
      reasoning := "error parsing routing decision"
      rejection_message := none
      error := some ("parse_routing_decision Error: " ++ e) }

/-! ## create_compact_chat_history (src/chat_agent/utils.py lines 59-82)

The entries flowing into the compactor are the store's records
(src/chat_agent/db_helper.py `ChatHistory`): `role` is declared as the
Literal `"user" | "assistant"` but the function compares it as a plain
string, so it is modelled as `String`. -/

structure ChatHistory where
  id : String := ""
  user_id : String := ""
  session_id : String := ""
  role : String
  tool_used : Option Route := none
  message : String
  created_at : String := ""
deriving DecidableEq, Repr

def compactLines : List ChatHistory → List String
  | [] => []
  | e :: rest =>
    if (e.role = "user" ∨ e.role = "assistant") ∧ e.message ≠ "" then
      (match e.tool_used with
       | some t => e.role ++ " (tool_used: " ++ routeStr t ++ "): " ++ e.message
       | none => e.role ++ ": " ++ e.message) :: compactLines rest
    else compactLines rest

def create_compact_chat_history (db_chat_history : List ChatHistory) : String :=
  String.intercalate "\n" (compactLines db_chat_history)

/-! ## Conversation state (src/chat_agent/graph_state.py) -/

structure ChatAgentState where
  user_id : String := ""
  user_input : String := ""
  session_id : Option String := none
  route : Option Route := none
  rejection_message : Option String := none
  final_answer : Option String := none
  error : List String := []
  chat_history : String := ""
  enable_streaming : Bool := false
deriving DecidableEq, Repr

/-! ## Stream-writer events and adapter results -/

/-- A `writer(...)` emission: either a progress payload
`{"CurrentStep": msg, "Response": {}}` or the terminal
`{"CurrentStep": "Done", "Response": {answer, session_id, error}}`. -/
inductive StreamEvent
  | progress (currentStep : String)
  | done (answer : String) (session_id : String) (error : List String)
deriving DecidableEq, Repr

/-- Result dictionary of a research tool
(src/chat_agent/tools.py: `{"status": "ok", "response": ...}` or
`{"status": "error", "error": ...}`). -/
inductive ToolResult
  | ok (response : String)
  | err (message : String)
deriving DecidableEq, Repr

/-- Result dictionary of `fetch_chat_history`
(src/chat_agent/db_helper.py: status success with entries, or error
with a message). -/
inductive FetchResult
  | success (chat_history : List ChatHistory)
  | err (message : String)
deriving DecidableEq, Repr

/-- One turn's interactions with the external collaborators: the
history fetch result, the LLM routing call (which may raise), the two
tool results and the general-knowledge answer call (which may raise).
Each is consumed at most once per turn. -/
structure Oracle where
  fetch : FetchResult
  decide_route : Except String RouterOutput
  clinical_tool : ToolResult
  biomarker_tool : ToolResult
  answer_general : Except String String

/-! ## persist_chat_history (src/chat_agent/db_helper.py lines 53-91)

`uuid.uuid4()` is modelled by a deterministic supply `mkSessionId ctr`
with the counter incremented on every allocation; the message id and
timestamp fields are modelled as `""` (no claim mentions them). With
the current source the function never raises (the database insert is a
placeholder), so it is total. -/

def mkSessionId (n : Nat) : String :=
  "session-" ++ toString n

structure PersistResult where
  session_id : String
  next_ctr : Nat
  record : ChatHistory
deriving Repr

def persist_chat_history (ctr : Nat) (user_id : String) (data : String) (role : String)
    (session_id : Option String) (tool_name : Option Route) : PersistResult :=
  let alloc : String × Nat :=
    match session_id with
    | none => (mkSessionId ctr, ctr + 1)
    | some s => if s = "" then (mkSessionId ctr, ctr + 1) else (s, ctr)
  { session_id := alloc.1
    next_ctr := alloc.2
    record :=
      { id := ""
        user_id := user_id
        session_id := alloc.1
        role := role
        tool_used := if role = "assistant" then tool_name else none
        message := data
        created_at := "" } }

/-! ## Graph nodes (src/chat_agent/graph.py) -/

/-- `classify_and_route` (lines 35-58): skip on prior error, otherwise
invoke the LLM router; an exception or a reported router error is
appended with the node-name text; on success `route` and
`rejection_message` are written from the router output. -/
def classify_and_route (decide_route : Except String RouterOutput)
    (state : ChatAgentState) : ChatAgentState :=
  if state.error ≠ [] then state
  else
    match decide_route with
    | Except.error e =>
      { state with error := state.error ++ ["Node classify_and_route: " ++ e] }
    | Except.ok ro =>
      if ro.error.getD "" ≠ "" then
        { state with error := state.error ++ ["Node classify_and_route: " ++ ro.error.getD ""] }
      else
        { state with route := some ro.decision, rejection_message := ro.rejection_message }

/-- `longevity_clinical_trial_node` (lines 61-91): skip on prior error;
emit the progress event, then call the tool; a tool error is appended,
a tool response becomes `final_answer`. -/
def longevity_clinical_trial_node (tool : ToolResult)
    (state : ChatAgentState) : ChatAgentState × List StreamEvent :=
  if state.error ≠ [] then (state, [])
  else
    let ev := [StreamEvent.progress "Researching information using longevity_clinical_trial_tool"]
    match tool with
    | ToolResult.err m =>
      ({ state with error := state.error ++ ["Node longevity_clinical_trial_node: " ++ m] }, ev)
    | ToolResult.ok resp => ({ state with final_answer := some resp }, ev)

/-- `aging_biomarker_node` (lines 94-122): same shape as the clinical
trial node with the biomarker tool. -/
def aging_biomarker_node (tool : ToolResult)
    (state : ChatAgentState) : ChatAgentState × List StreamEvent :=
  if state.error ≠ [] then (state, [])
  else
    let ev := [StreamEvent.progress "Researching information using aging_biomarker_tool"]
    match tool with
    | ToolResult.err m =>
      ({ state with error := state.error ++ ["Node aging_biomarker_node: " ++ m] }, ev)
    | ToolResult.ok resp => ({ state with final_answer := some resp }, ev)

/-- `general_knowledge_node` (lines 125-138): skip on prior error;
answer through the LLM; an exception is appended with the node-name
text. The source emits no stream event in this node. -/
def general_knowledge_node (answer : Except String String)
    (state : ChatAgentState) : ChatAgentState × List StreamEvent :=
  if state.error ≠ [] then (state, [])
  else
    match answer with
    | Except.error e =>
      ({ state with error := state.error ++ ["Node general_knowledge_node: " ++ e] }, [])
    | Except.ok a => ({ state with final_answer := some a }, [])

def rejectionFallbackText : String :=
  "Sorry, I can\x27t help with that request. Ask me about biomarkers, clinical trials, or longevity research."

/-- `rejection_handler` (lines 141-160): skip on prior error; the
answer is the rejection message when truthy, else the fixed fallback
sentence. The source emits no stream event in this node. -/
def rejection_handler (state : ChatAgentState) : ChatAgentState × List StreamEvent :=
  if state.error ≠ [] then (state, [])
  else
    if state.rejection_message.getD "" ≠ "" then
      ({ state with final_answer := state.rejection_message }, [])
    else
      ({ state with final_answer := some rejectionFallbackText }, [])

/-- `get_chat_history` (lines 163-199): skip on prior error; a missing
`user_id` is a node error; a successful fetch is compacted (empty
string when no history), a failed fetch is appended as a node error. -/
def get_chat_history (fetch : FetchResult) (state : ChatAgentState) : ChatAgentState :=
  if state.error ≠ [] then state
  else if state.user_id = "" then
    { state with error := state.error ++ ["Node get_chat_history: user_id missing"] }
  else
    match fetch with
    | FetchResult.success entries =>
      if entries ≠ [] then { state with chat_history := create_compact_chat_history entries }
      else { state with chat_history := "" }
    | FetchResult.err m =>
      { state with error := state.error ++ ["Node get_chat_history: " ++ m] }

/-- `save_chat_history` (lines 202-254): skip on prior error; a missing
`user_id` is a node error; otherwise persist the user message when
non-empty and then the assistant message when non-empty, threading the
session id returned by the first write into the second, and store the
resulting session id back into the state. The two sequential
conditionals of the source are expanded into their four cases; the
returned triple also carries the allocation counter and the records
written, in call order. -/
def save_chat_history (ctr : Nat) (state : ChatAgentState) :
    ChatAgentState × Nat × List ChatHistory :=
  if state.error ≠ [] then (state, ctr, [])
  else if state.user_id = "" then
    ({ state with error := state.error ++ ["Node save_chat_history: user_id is missing"] }, ctr, [])
  else if state.user_input ≠ "" then
    let p1 := persist_chat_history ctr state.user_id state.user_input "user" state.session_id none
    if state.final_answer.getD "" ≠ "" then
      let p2 := persist_chat_history p1.next_ctr state.user_id (state.final_answer.getD "")
        "assistant" (some p1.session_id) state.route
      ({ state with session_id := some p2.session_id }, p2.next_ctr, [p1.record, p2.record])
    else
      ({ state with session_id := some p1.session_id }, p1.next_ctr, [p1.record])
  else if state.final_answer.getD "" ≠ "" then
    let p2 := persist_chat_history ctr state.user_id (state.final_answer.getD "")
      "assistant" state.session_id state.route
    ({ state with session_id := some p2.session_id }, p2.next_ctr, [p2.record])
  else (state, ctr, [])

/-- `stream_final_response` (lines 257-274): emit the terminal event
with the answer, session id and error list (each defaulted like
`state.get`). -/
def stream_final_response (state : ChatAgentState) : ChatAgentState × List StreamEvent :=
  (state, [StreamEvent.done (state.final_answer.getD "") (state.session_id.getD "") state.error])

/-! ## Graph assembly (src/chat_agent/graph.py build_graph, lines 281-321) -/

inductive NodeId
  | get_chat_history
  | classify_and_route
  | longevity_clinical_trial_node
  | aging_biomarker_node
  | general_knowledge_node
  | rejection_handler
  | save_chat_history
  | stream_final_response
deriving DecidableEq, Repr

/-- The conditional-edge key after classification:
`lambda s: s.get("route", "general_knowledge")`. -/
def route_key (state : ChatAgentState) : Route :=
  state.route.getD Route.general_knowledge

/-- The conditional-edge mapping of `build_graph` (lines 302-307): which
node each routing key leads to. -/
def branch_target : Route → NodeId
  | Route.longevity_clinical_trial_tool => NodeId.longevity_clinical_trial_node
  | Route.aging_biomarker_tool => NodeId.aging_biomarker_node
  | Route.general_knowledge => NodeId.general_knowledge_node
  | Route.rejection_handler => NodeId.rejection_handler

/-- Execute the node selected by the routing branch. -/
def run_branch_node (o : Oracle) (r : Route) (state : ChatAgentState) :
    ChatAgentState × List StreamEvent :=
  match r with
  | Route.longevity_clinical_trial_tool => longevity_clinical_trial_node o.clinical_tool state
  | Route.aging_biomarker_tool => aging_biomarker_node o.biomarker_tool state
  | Route.general_knowledge => general_knowledge_node o.answer_general state
  | Route.rejection_handler => rejection_handler state

/-- Terminal observation of one turn: final state, the stream events in
emission order, the nodes entered in execution order, the session
allocator counter after the turn and the history records written. -/
structure RunResult where
  state : ChatAgentState
  events : List StreamEvent
  trace : List NodeId
  ctr : Nat
  log : List ChatHistory
deriving DecidableEq, Repr

/-- One end-to-end execution of the compiled graph: entry at
`get_chat_history`, edge to `classify_and_route`, the routing branch,
edge to `save_chat_history`, and the exit branch on
`s.get("enable_streaming", False)`. -/
def run_graph (o : Oracle) (ctr0 : Nat) (s0 : ChatAgentState) : RunResult :=
  let s1 := get_chat_history o.fetch s0
  let s2 := classify_and_route o.decide_route s1
  let r := route_key s2
  let br := run_branch_node o r s2
  let sv := save_chat_history ctr0 br.1
  if sv.1.enable_streaming then
    let fin := stream_final_response sv.1
    { state := fin.1
      events := br.2 ++ fin.2
      trace := [NodeId.get_chat_history, NodeId.classify_and_route, branch_target r,
                NodeId.save_chat_history, NodeId.stream_final_response]
      ctr := sv.2.1
      log := sv.2.2 }
  else
    { state := sv.1
      events := br.2
      trace := [NodeId.get_chat_history, NodeId.classify_and_route, branch_target r,
                NodeId.save_chat_history]
      ctr := sv.2.1
      log := sv.2.2 }

/-- The initial state built by `run_chat_agent` (lines 335-340). -/
def initial_state (user_input user_id : String) (session_id : Option String)
    (enable_streaming : Bool) : ChatAgentState :=
  { user_input := user_input
    user_id := user_id
    session_id := session_id
    enable_streaming := enable_streaming }

/-- `run_chat_agent` (lines 328-362), as the terminal run observation. -/
def run_chat_agent_result (o : Oracle) (ctr : Nat) (user_input user_id : String)
    (session_id : Option String) (enable_streaming : Bool) : RunResult :=
  run_graph o ctr (initial_state user_input user_id session_id enable_streaming)

/-- The blocking-mode return dictionary of `run_chat_agent`
(lines 358-362): `answer`, `session_id` and `error` from the terminal
state with `get` defaults. -/
structure AgentBlockingResponse where
  answer : String
  session_id : String
  error : List String
deriving DecidableEq, Repr

def run_chat_agent_blocking (o : Oracle) (ctr : Nat) (user_input user_id : String)
    (session_id : Option String) : AgentBlockingResponse :=
  let out := (run_chat_agent_result o ctr user_input user_id session_id false).state
  { answer := out.final_answer.getD ""
    session_id := out.session_id.getD ""
    error := out.error }

/-! ## HTTP endpoint (src/app.py) -/

/-- Request model `ChatAIRequest` (src/chat_agent/models.py); the
`submission_id` and `quote_ids` fields are not read by the endpoint. -/
structure ChatAIRequest where
  user_query : String
  user_id : String
  submission_id : Option String := some ""
  quote_ids : List String := []
  session_id : Option String := some ""
  enable_streaming : Bool := false
deriving DecidableEq, Repr

/-- The shapes of response the endpoint can produce: a 400 validation
error detail, the errors-only 400 JSON body, the 200 success body, or
the 200 streaming response with its event sequence. -/
inductive AgentHttpResponse
  | validation_error (status : Nat) (code : String) (message : String)
  | error_payload (status : Nat) (error : List String)
  | success_payload (status : Nat) (response : AgentBlockingResponse)
  | streaming_payload (status : Nat) (events : List StreamEvent)
deriving DecidableEq, Repr

/-- `chat_with_ai_agent` (src/app.py lines 21-56): validate the query
and user id, then stream, or run blocking and frame the result as 400
when `error` is truthy and 200 otherwise. -/
def chat_with_ai_agent (o : Oracle) (ctr : Nat) (request : ChatAIRequest) : AgentHttpResponse :=
  if pyStrip request.user_query = "" then
    AgentHttpResponse.validation_error 400 "USER_QUERY_NOT_PROVIDED" "Please provide a valid user query."
  else if pyStrip request.user_id = "" then
    AgentHttpResponse.validation_error 400 "USER_ID_NOT_PROVIDED" "Please provide a valid user id."
  else if request.enable_streaming then
    AgentHttpResponse.streaming_payload 200
      (run_chat_agent_result o ctr request.user_query request.user_id request.session_id true).events
  else
    let response := run_chat_agent_blocking o ctr request.user_query request.user_id request.session_id
    if response.error ≠ [] then AgentHttpResponse.error_payload 400 response.error
    else AgentHttpResponse.success_payload 200 response

/-! ## Helper lemmas -/

lemma append_ne_empty_left (a b : String) (h : a ≠ "") : a ++ b ≠ "" := by
  intro hab
  apply h
  have hd : a.data ++ b.data = [] := by
    have := congrArg String.data hab
    simpa [String.data_append] using this
  have ha : a.data = [] := (List.append_eq_nil.mp hd).1
  exact String.ext ha

lemma save_chat_history_skip (ctr : Nat) (s : ChatAgentState) (h : s.error ≠ []) :
    save_chat_history ctr s = (s, ctr, []) := by
  simp [save_chat_history, h]

lemma run_branch_node_skip (o : Oracle) (r : Route) (s : ChatAgentState) (h : s.error ≠ []) :
    run_branch_node o r s = (s, []) := by
  cases r <;>
    simp [run_branch_node, longevity_clinical_trial_node, aging_biomarker_node,
      general_knowledge_node, rejection_handler, h]

lemma run_branch_node_no_answer (o : Oracle) (r : Route) (s : ChatAgentState)
    (h : (run_branch_node o r s).1.final_answer = none) :
    (run_branch_node o r s).1.error ≠ [] := by
  by_cases he : s.error = []
  · cases r
    · cases hb : o.biomarker_tool <;>
        simp [run_branch_node, aging_biomarker_node, he, hb] at h ⊢
    · cases hb : o.clinical_tool <;>
        simp [run_branch_node, longevity_clinical_trial_node, he, hb] at h ⊢
    · cases hb : o.answer_general <;>
        simp [run_branch_node, general_knowledge_node, he, hb] at h ⊢
    · by_cases hr : s.rejection_message.getD "" ≠ ""
      · simp [run_branch_node, rejection_handler, he, hr] at h
        exact absurd (by rw [h]; rfl : s.rejection_message.getD "" = "") hr
      · simp [run_branch_node, rejection_handler, he, hr] at h
  · rw [run_branch_node_skip o r s he]
    exact he

lemma save_chat_history_final_answer (ctr : Nat) (s : ChatAgentState) :
    (save_chat_history ctr s).1.final_answer = s.final_answer := by
  unfold save_chat_history
  repeat' split
  all_goals rfl

lemma save_chat_history_enable (ctr : Nat) (s : ChatAgentState) :
    (save_chat_history ctr s).1.enable_streaming = s.enable_streaming := by
  unfold save_chat_history
  repeat' split
  all_goals rfl

lemma get_chat_history_enable (f : FetchResult) (s : ChatAgentState) :
    (get_chat_history f s).enable_streaming = s.enable_streaming := by
  unfold get_chat_history
  repeat' split
  all_goals rfl

lemma classify_and_route_enable (d : Except String RouterOutput) (s : ChatAgentState) :
    (classify_and_route d s).enable_streaming = s.enable_streaming := by
  unfold classify_and_route
  repeat' split
  all_goals rfl

lemma run_branch_node_enable (o : Oracle) (r : Route) (s : ChatAgentState) :
    (run_branch_node o r s).1.enable_streaming = s.enable_streaming := by
  cases r <;>
    unfold run_branch_node longevity_clinical_trial_node aging_biomarker_node
      general_knowledge_node rejection_handler <;>
    (repeat' split) <;> rfl

/-! ## Shared concrete fixtures for witnesses and counterexamples -/

def demoOracle : Oracle :=
  { fetch := FetchResult.success []
    decide_route := Except.ok { decision := Route.general_knowledge, reasoning := "r" }
    clinical_tool := ToolResult.ok "ct"
    biomarker_tool := ToolResult.ok "bm"
    answer_general := Except.ok "A" }

def erroredState : ChatAgentState :=
  { user_id := "u", user_input := "hi", final_answer := some "ans",
    error := ["Node classify_and_route: boom"] }

def cleanSaveState : ChatAgentState :=
  { user_id := "u", user_input := "hi", final_answer := some "ans",
    route := some Route.general_knowledge }

/-! ## Claim C1 -/

/-- Claim C1 counterexample: after a failed classification (route left
unset, error recorded), the routing branch selects the GeneralKnowledge
node's path, not the Rejection node's path as the claim states. -/
theorem C1_route_unset_counterexample :
    (classify_and_route (Except.error "llm unavailable") (initial_state "hi" "u" none false)).route
      = none ∧
    (classify_and_route (Except.error "llm unavailable") (initial_state "hi" "u" none false)).error
      ≠ [] ∧
    branch_target (route_key
      (classify_and_route (Except.error "llm unavailable") (initial_state "hi" "u" none false)))
      = NodeId.general_knowledge_node ∧
    NodeId.general_knowledge_node ≠ NodeId.rejection_handler := by
  decide

/-- Claim C1 (amended): the routing branch after classification is
total over route, and when route is absent the branch selects the
GeneralKnowledge node's path (not the Rejection node's); a terminal
state of classify_and_route with route unset always carries non-empty
errors, and with non-empty errors every downstream tool/answer node
skips its primary work, passing the state through unchanged and
emitting nothing. -/
theorem C1_route_unset_amended (d : Except String RouterOutput) (o : Oracle)
    (s : ChatAgentState) :
    ((classify_and_route d s).route = none → (classify_and_route d s).error ≠ []) ∧
    ((classify_and_route d s).route = none →
      branch_target (route_key (classify_and_route d s)) = NodeId.general_knowledge_node) ∧
    (∀ (r : Route) (s2 : ChatAgentState), s2.error ≠ [] → run_branch_node o r s2 = (s2, [])) := by
  refine ⟨?_, ?_, ?_⟩
  · intro hnone
    by_cases he : s.error ≠ []
    · simp only [classify_and_route, if_pos he]
      exact he
    · cases d with
      | error e => simp [classify_and_route, he]
      | ok ro =>
        by_cases hroerr : ro.error.getD "" ≠ ""
        · simp [classify_and_route, he, hroerr]
        · simp [classify_and_route, he, hroerr] at hnone
  · intro hnone
    simp [route_key, hnone, branch_target]
  · intro r s2 h2
    exact run_branch_node_skip o r s2 h2

/-- Witness for C1 at a concrete failed classification. -/
theorem C1_route_unset_witness :
    (classify_and_route (Except.error "boom") (initial_state "q" "u" none false)).error ≠ [] ∧
    branch_target (route_key (classify_and_route (Except.error "boom")
      (initial_state "q" "u" none false))) = NodeId.general_knowledge_node ∧
    run_branch_node demoOracle Route.general_knowledge erroredState = (erroredState, []) := by
  have h := C1_route_unset_amended (Except.error "boom") demoOracle
    (initial_state "q" "u" none false)
  exact ⟨h.1 (by decide), h.2.1 (by decide), h.2.2 Route.general_knowledge erroredState (by decide)⟩

/-! ## Claim C2 -/

/-- Claim C2 counterexample: a state with non-empty errors and a
non-empty userId passes through SaveHistory untouched — no persistence
record is written and no session is allocated — refuting the claim
that SaveHistory is skipped only when userId is empty. -/
theorem C2_save_on_error_counterexample :
    erroredState.user_id ≠ "" ∧ erroredState.error ≠ [] ∧
    save_chat_history 0 erroredState = (erroredState, 0, []) := by
  decide

/-- Claim C2 (amended): SaveHistory is skipped (pure pass-through, no
persistence) whenever errors is non-empty, in addition to the
empty-userId case; it performs persistence work only on an error-free
state with non-empty userId (and something to write). -/
theorem C2_save_skip_amended (ctr : Nat) (s : ChatAgentState) :
    (s.error ≠ [] → save_chat_history ctr s = (s, ctr, [])) ∧
    (s.error = [] → s.user_id ≠ "" → s.user_input ≠ "" →
      (save_chat_history ctr s).2.2 ≠ []) := by
  constructor
  · exact save_chat_history_skip ctr s
  · intro h1 h2 h3
    by_cases h4 : s.final_answer.getD "" ≠ "" <;>
      simp [save_chat_history, h1, h2, h3, h4]

/-- Witness for C2 at concrete skipped and persisting states. -/
theorem C2_save_skip_witness :
    save_chat_history 0 erroredState = (erroredState, 0, []) ∧
    (save_chat_history 3 cleanSaveState).2.2 ≠ [] := by
  exact ⟨(C2_save_skip_amended 0 erroredState).1 (by decide),
    (C2_save_skip_amended 3 cleanSaveState).2 (by decide) (by decide) (by decide)⟩

/-! ## Claim C3 -/

/-- Claim C3 counterexample: on an error-free state the
GeneralKnowledge and Rejection nodes run (they are not skipped by the
error short-circuit) yet emit no progress event, refuting the claim
that each of the four tool/answer nodes announces its capability. -/
theorem C3_progress_events_counterexample :
    (initial_state "hi" "u" none true).error = [] ∧
    (general_knowledge_node (Except.ok "ans") (initial_state "hi" "u" none true)).2 = [] ∧
    (rejection_handler (initial_state "hi" "u" none true)).2 = [] := by
  decide

/-- Claim C3 (amended): of the four routed nodes, only the two research
tool nodes emit a progress event announcing the capability they invoke
— emitted whatever the tool's outcome, hence before the tool's work —
while the GeneralKnowledge and Rejection nodes emit no progress event
at all. -/
theorem C3_progress_events_amended (tb tc : ToolResult) (ans : Except String String)
    (s : ChatAgentState) (h : s.error = []) :
    (aging_biomarker_node tb s).2 =
      [StreamEvent.progress "Researching information using aging_biomarker_tool"] ∧
    (longevity_clinical_trial_node tc s).2 =
      [StreamEvent.progress "Researching information using longevity_clinical_trial_tool"] ∧
    (general_knowledge_node ans s).2 = [] ∧
    (rejection_handler s).2 = [] := by
  refine ⟨?_, ?_, ?_, ?_⟩
  · cases tb <;> simp [aging_biomarker_node, h]
  · cases tc <;> simp [longevity_clinical_trial_node, h]
  · cases ans <;> simp [general_knowledge_node, h]
  · by_cases hr : s.rejection_message.getD "" ≠ "" <;> simp [rejection_handler, h, hr]

/-- Witness for C3 at a concrete error-free state. -/
theorem C3_progress_events_witness :
    (aging_biomarker_node (ToolResult.ok "bm") (initial_state "q" "u" none true)).2 =
      [StreamEvent.progress "Researching information using aging_biomarker_tool"] ∧
    (longevity_clinical_trial_node (ToolResult.err "down") (initial_state "q" "u" none true)).2 =
      [StreamEvent.progress "Researching information using longevity_clinical_trial_tool"] ∧
    (general_knowledge_node (Except.ok "A") (initial_state "q" "u" none true)).2 = [] ∧
    (rejection_handler (initial_state "q" "u" none true)).2 = [] := by
  exact C3_progress_events_amended (ToolResult.ok "bm") (ToolResult.err "down")
    (Except.ok "A") (initial_state "q" "u" none true) (by decide)

/-! ## Claim C4 -/

/-- Claim C4 (confirmed): for every input string the classifier-output
parser returns a structured value (it is a total function, so it never
throws past its boundary); the result is either the validated value of
a strict JSON parse of the code-fence-stripped text, or — when the
strict parse fails — the validated value of a re-parse after
trailing-comma removal, or on any unrecoverable failure the fallback
value with decision Rejected, the fixed reasoning, and a non-empty
error carrying the failure detail. -/
theorem C4_parse_routing_decision_defensive (s : String) :
    (∃ j r, jsonLoads (stripFences (pyStrip s)) = Except.ok j ∧
      validateRouterOutput j = Except.ok r ∧ parse_routing_decision s = r) ∨
    (∃ e1 j r, jsonLoads (stripFences (pyStrip s)) = Except.error e1 ∧
      jsonLoads (removeTrailingCommas (stripFences (pyStrip s))) = Except.ok j ∧
      validateRouterOutput j = Except.ok r ∧ parse_routing_decision s = r) ∨
    ((parse_routing_decision s).decision = Route.rejection_handler ∧
      (parse_routing_decision s).reasoning = "error parsing routing decision" ∧
      ∃ e, (parse_routing_decision s).error = some e ∧ e ≠ "") := by
  have hfb : ∀ e : String, parseRoutingCore s = Except.error e →
      (parse_routing_decision s).decision = Route.rejection_handler ∧
      (parse_routing_decision s).reasoning = "error parsing routing decision" ∧
      ∃ e2, (parse_routing_decision s).error = some e2 ∧ e2 ≠ "" := by
    intro e he
    refine ⟨by simp [parse_routing_decision, he], by simp [parse_routing_decision, he],
      "parse_routing_decision Error: " ++ e, by simp [parse_routing_decision, he], ?_⟩
    exact append_ne_empty_left "parse_routing_decision Error: " e (by decide)
  cases h1 : jsonLoads (stripFences (pyStrip s)) with
  | ok j =>
    cases h2 : validateRouterOutput j with
    | ok r =>
      exact Or.inl ⟨j, r, rfl, h2, by simp [parse_routing_decision, parseRoutingCore, h1, h2]⟩
    | error e =>
      refine Or.inr (Or.inr (hfb e ?_))
      simp [parseRoutingCore, h1, h2]
  | error e1 =>
    cases h2 : jsonLoads (removeTrailingCommas (stripFences (pyStrip s))) with
    | ok j =>
      cases h3 : validateRouterOutput j with
      | ok r =>
        exact Or.inr (Or.inl ⟨e1, j, r, rfl, rfl, h3,
          by simp [parse_routing_decision, parseRoutingCore, h1, h2, h3]⟩)
      | error e =>
        refine Or.inr (Or.inr (hfb e ?_))
        simp [parseRoutingCore, h1, h2, h3]
    | error e2 =>
      refine Or.inr (Or.inr (hfb e2 ?_))
      simp [parseRoutingCore, h1, h2]

/-! ## Claim C5 -/

def failOracle : Oracle := { demoOracle with decide_route := Except.error "llm down" }

/-- Claim C5 counterexample: a blocking turn with valid inputs whose
processing failed (classifier exception, so errors is non-empty — not
a validation precondition, not an unhandled endpoint exception) is
framed as HTTP 400 with an errors-only payload, not with success
framing carrying the answer shape. -/
theorem C5_error_framing_counterexample :
    chat_with_ai_agent failOracle 0 { user_query := "hi", user_id := "u" } =
      AgentHttpResponse.error_payload 400 ["Node classify_and_route: llm down"] := by
  decide

/-- Claim C5 (amended): for a blocking turn that passes the two input
validations, a non-empty terminal errors list is framed as HTTP 400
with a payload carrying only the errors; the success shape (200 with
answer, sessionId and errors) is returned exactly when the terminal
errors list is empty. -/
theorem C5_blocking_error_framing_amended (o : Oracle) (ctr : Nat) (req : ChatAIRequest)
    (h1 : pyStrip req.user_query ≠ "") (h2 : pyStrip req.user_id ≠ "")
    (h3 : req.enable_streaming = false) :
    ((run_chat_agent_blocking o ctr req.user_query req.user_id req.session_id).error ≠ [] →
      chat_with_ai_agent o ctr req =
        AgentHttpResponse.error_payload 400
          (run_chat_agent_blocking o ctr req.user_query req.user_id req.session_id).error) ∧
    ((run_chat_agent_blocking o ctr req.user_query req.user_id req.session_id).error = [] →
      chat_with_ai_agent o ctr req =
        AgentHttpResponse.success_payload 200
          (run_chat_agent_blocking o ctr req.user_query req.user_id req.session_id)) := by
  constructor <;> intro he <;> simp [chat_with_ai_agent, h1, h2, h3, he]

/-- Witness for C5 at a concrete failed and a concrete successful
blocking turn. -/
theorem C5_blocking_error_framing_witness :
    chat_with_ai_agent failOracle 0 { user_query := "hi", user_id := "u" } =
      AgentHttpResponse.error_payload 400
        (run_chat_agent_blocking failOracle 0 "hi" "u" (some "")).error ∧
    chat_with_ai_agent demoOracle 0 { user_query := "hi", user_id := "u" } =
      AgentHttpResponse.success_payload 200
        (run_chat_agent_blocking demoOracle 0 "hi" "u" (some "")) := by
  exact ⟨(C5_blocking_error_framing_amended failOracle 0
      { user_query := "hi", user_id := "u" } (by decide) (by decide) (by decide)).1 (by decide),
    (C5_blocking_error_framing_amended demoOracle 0
      { user_query := "hi", user_id := "u" } (by decide) (by decide) (by decide)).2 (by decide)⟩

/-! ## Claim C6 -/

lemma get_chat_history_final_answer (f : FetchResult) (s : ChatAgentState) :
    (get_chat_history f s).final_answer = s.final_answer := by
  unfold get_chat_history
  repeat' split
  all_goals rfl

lemma classify_and_route_final_answer (d : Except String RouterOutput) (s : ChatAgentState) :
    (classify_and_route d s).final_answer = s.final_answer := by
  unfold classify_and_route
  repeat' split
  all_goals rfl

/-- The exit branch never changes the state, so the terminal state of a
run is the state produced by `save_chat_history`. -/
lemma run_graph_state (o : Oracle) (ctr : Nat) (s0 : ChatAgentState) :
    (run_graph o ctr s0).state =
      (save_chat_history ctr (run_branch_node o
        (route_key (classify_and_route o.decide_route (get_chat_history o.fetch s0)))
        (classify_and_route o.decide_route (get_chat_history o.fetch s0))).1).1 := by
  simp only [run_graph]
  split <;> rfl

def isBranchNode : NodeId → Bool
  | NodeId.longevity_clinical_trial_node => true
  | NodeId.aging_biomarker_node => true
  | NodeId.general_knowledge_node => true
  | NodeId.rejection_handler => true
  | _ => false

/-- Claim C6 (confirmed): on every turn with valid inputs exactly one
of the four tool/answer nodes is entered, the state entering the
routing branch has no finalAnswer yet (so at most that one node can
set it), and a terminal state with no finalAnswer always carries
non-empty errors. -/
theorem C6_unique_final_answer (o : Oracle) (ctr : Nat) (ui uid : String)
    (sid : Option String) (st : Bool) (h1 : ui ≠ "") (h2 : uid ≠ "") :
    (((run_chat_agent_result o ctr ui uid sid st).trace.filter isBranchNode).length = 1) ∧
    ((classify_and_route o.decide_route (get_chat_history o.fetch
        (initial_state ui uid sid st))).final_answer = none) ∧
    ((run_chat_agent_result o ctr ui uid sid st).state.final_answer = none →
      (run_chat_agent_result o ctr ui uid sid st).state.error ≠ []) := by
  have hbt : ∀ r : Route, isBranchNode (branch_target r) = true := by
    intro r
    cases r <;> rfl
  refine ⟨?_, ?_, ?_⟩
  · simp only [run_chat_agent_result, run_graph]
    split <;>
      cases hr : route_key (classify_and_route o.decide_route
        (get_chat_history o.fetch (initial_state ui uid sid st))) <;>
      simp [hr, branch_target, List.filter, isBranchNode]
  · rw [classify_and_route_final_answer, get_chat_history_final_answer]
    rfl
  · intro hnone
    unfold run_chat_agent_result at hnone ⊢
    rw [run_graph_state] at hnone ⊢
    have hbr := run_branch_node_no_answer o
      (route_key (classify_and_route o.decide_route (get_chat_history o.fetch
        (initial_state ui uid sid st))))
      (classify_and_route o.decide_route (get_chat_history o.fetch (initial_state ui uid sid st)))
    rw [save_chat_history_final_answer] at hnone
    have herr := hbr hnone
    rw [save_chat_history_skip ctr _ herr]
    exact herr

/-- Witness for C6 at a concrete valid-input run. -/
theorem C6_unique_final_answer_witness :
    ((run_chat_agent_result demoOracle 0 "hi" "u" none false).trace.filter isBranchNode).length
      = 1 ∧
    ((run_chat_agent_result failOracle 0 "hi" "u" none false).state.final_answer = none →
      (run_chat_agent_result failOracle 0 "hi" "u" none false).state.error ≠ []) := by
  exact ⟨(C6_unique_final_answer demoOracle 0 "hi" "u" none false (by decide) (by decide)).1,
    (C6_unique_final_answer failOracle 0 "hi" "u" none false (by decide) (by decide)).2.2⟩

/-! ## Claim C7 -/

lemma mkSessionId_ne_empty (n : Nat) : mkSessionId n ≠ "" :=
  append_ne_empty_left "session-" (toString n) (by decide)

/-- Claim C7 (confirmed): a turn entering SaveHistory with no session
id (absent or blank), no prior error, a non-empty userId and both
messages to write allocates exactly one new session identifier on the
first persistence write, uses that same identifier for the assistant
write, captures it into the state, and the exit step leaves it
untouched. -/
theorem C7_session_allocation (ctr : Nat) (s : ChatAgentState)
    (h1 : s.error = []) (h2 : s.user_id ≠ "") (h3 : s.session_id.getD "" = "")
    (h4 : s.user_input ≠ "") (h5 : s.final_answer.getD "" ≠ "") :
    (save_chat_history ctr s).2.1 = ctr + 1 ∧
    (save_chat_history ctr s).2.2.length = 2 ∧
    (∀ rec ∈ (save_chat_history ctr s).2.2, rec.session_id = mkSessionId ctr) ∧
    (save_chat_history ctr s).1.session_id = some (mkSessionId ctr) ∧
    (stream_final_response (save_chat_history ctr s).1).1.session_id
      = some (mkSessionId ctr) := by
  have hs : s.session_id = none ∨ s.session_id = some "" := by
    cases hse : s.session_id with
    | none => exact Or.inl rfl
    | some str =>
      refine Or.inr ?_
      have hstr : str = "" := by simpa [hse] using h3
      rw [hstr]
  have hsave : save_chat_history ctr s =
      ({ s with session_id := some (mkSessionId ctr) }, ctr + 1,
        [ { id := "", user_id := s.user_id, session_id := mkSessionId ctr, role := "user",
            tool_used := none, message := s.user_input, created_at := "" },
          { id := "", user_id := s.user_id, session_id := mkSessionId ctr, role := "assistant",
            tool_used := s.route, message := s.final_answer.getD "", created_at := "" } ]) := by
    rcases hs with hs | hs <;>
      simp [save_chat_history, persist_chat_history, h1, h2, h4, h5, hs, mkSessionId_ne_empty]
  rw [hsave]
  refine ⟨rfl, rfl, ?_, rfl, rfl⟩
  intro rec hrec
  simp only [List.mem_cons, List.not_mem_nil, or_false] at hrec
  rcases hrec with h | h <;> rw [h]

/-- Witness for C7 at a concrete first-time session. -/
theorem C7_session_allocation_witness :
    (save_chat_history 5 cleanSaveState).2.1 = 6 ∧
    (save_chat_history 5 cleanSaveState).1.session_id = some (mkSessionId 5) := by
  exact ⟨(C7_session_allocation 5 cleanSaveState (by decide) (by decide) (by decide)
      (by decide) (by decide)).1,
    (C7_session_allocation 5 cleanSaveState (by decide) (by decide) (by decide)
      (by decide) (by decide)).2.2.2.1⟩

/-! ## Claim C8 -/

/-- Claim C8 (confirmed): an exception arriving at a node's boundary
(modelled by the oracle raising) is caught there and converted into an
error string prefixed with the node's name appended to errors — the
node returns normally, so nothing propagates past it (every node
function is total) — and every run's trace still contains the
SaveHistory step and ends at the exit branch (the streaming terminal
node when streaming was requested, SaveHistory itself otherwise). The
two nodes whose work can raise in the source are the classifier call
and the general-knowledge call. -/
theorem C8_node_exception_boundary (e : String) (s : ChatAgentState) (o : Oracle) (ctr : Nat)
    (s0 : ChatAgentState) (h : s.error = []) :
    classify_and_route (Except.error e) s =
      { s with error := s.error ++ ["Node classify_and_route: " ++ e] } ∧
    general_knowledge_node (Except.error e) s =
      ({ s with error := s.error ++ ["Node general_knowledge_node: " ++ e] }, []) ∧
    NodeId.save_chat_history ∈ (run_graph o ctr s0).trace ∧
    (s0.enable_streaming = true →
      (run_graph o ctr s0).trace.getLast? = some NodeId.stream_final_response) ∧
    (s0.enable_streaming = false →
      (run_graph o ctr s0).trace.getLast? = some NodeId.save_chat_history) := by
  have hen : (save_chat_history ctr (run_branch_node o
      (route_key (classify_and_route o.decide_route (get_chat_history o.fetch s0)))
      (classify_and_route o.decide_route (get_chat_history o.fetch s0))).1).1.enable_streaming
      = s0.enable_streaming := by
    rw [save_chat_history_enable, run_branch_node_enable, classify_and_route_enable,
      get_chat_history_enable]
  refine ⟨?_, ?_, ?_, ?_, ?_⟩
  · simp [classify_and_route, h]
  · simp [general_knowledge_node, h]
  · simp only [run_graph]
    split <;> simp
  · intro hst
    simp only [run_graph]
    split
    · rfl
    · rename_i hc
      rw [hen, hst] at hc
      exact absurd rfl hc
  · intro hst
    simp only [run_graph]
    split
    · rename_i hc
      rw [hen, hst] at hc
      exact absurd hc (by simp)
    · rfl

/-- Witness for C8 at a concrete exception and a concrete run. -/
theorem C8_node_exception_boundary_witness :
    classify_and_route (Except.error "boom") (initial_state "q" "u" none true) =
      { initial_state "q" "u" none true with error := ["Node classify_and_route: boom"] } ∧
    NodeId.save_chat_history ∈ (run_graph failOracle 0 (initial_state "q" "u" none true)).trace ∧
    (run_graph failOracle 0 (initial_state "q" "u" none true)).trace.getLast? =
      some NodeId.stream_final_response := by
  have h := C8_node_exception_boundary "boom" (initial_state "q" "u" none true) failOracle 0
    (initial_state "q" "u" none true) (by decide)
  exact ⟨by simpa using h.1, h.2.2.1, h.2.2.2.1 (by decide)⟩

/-! ## Claim C9 -/

def c9RouterText : String :=
  "\x7b\"decision\": \"general_knowledge\", \"reasoning\": \"r\", \"rejection_message\": \"X\"\x7d"

/-- Claim C9 counterexample: a classifier output that carries a
rejection_message together with a non-Rejected decision — produced by
the repository's own parser on well-formed JSON — leaves the state
with route GeneralKnowledge and rejectionMessage set, refuting "set
only when route = Rejected". -/
theorem C9_rejection_message_counterexample :
    parse_routing_decision c9RouterText =
      { decision := Route.general_knowledge, reasoning := "r", rejection_message := some "X" } ∧
    (classify_and_route (Except.ok (parse_routing_decision c9RouterText))
      (initial_state "q" "u" none false)).route = some Route.general_knowledge ∧
    (classify_and_route (Except.ok (parse_routing_decision c9RouterText))
      (initial_state "q" "u" none false)).rejection_message = some "X" ∧
    Route.general_knowledge ≠ Route.rejection_handler := by
  decide

/-- Claim C9 (amended): classify_and_route copies the classifier's
rejection_message into the state on every successful classification,
whatever the route; after a non-Rejected classification the field is
unset only when the classifier itself supplied none. -/
theorem C9_rejection_message_amended (ro : RouterOutput) (s : ChatAgentState)
    (h1 : s.error = []) (h2 : ro.error.getD "" = "") :
    classify_and_route (Except.ok ro) s =
      { s with route := some ro.decision, rejection_message := ro.rejection_message } := by
  simp [classify_and_route, h1, h2]

/-- Witness for C9 at a concrete classifier output. -/
theorem C9_rejection_message_witness :
    classify_and_route
      (Except.ok
        { decision := Route.general_knowledge, reasoning := "r", rejection_message := some "X" })
      (initial_state "q" "u" none false) =
      { initial_state "q" "u" none false with
          route := some Route.general_knowledge
          rejection_message := some "X" } := by
  exact C9_rejection_message_amended
    { decision := Route.general_knowledge, reasoning := "r", rejection_message := some "X" }
    (initial_state "q" "u" none false) (by decide) (by decide)

/-! ## Claim C10 -/

/-- The output line format as the specification words it. -/
def specHistoryLine (e : ChatHistory) : String :=
  match e.tool_used with
  | some t => e.role ++ " (tool_used: " ++ routeStr t ++ "): " ++ e.message
  | none => e.role ++ ": " ++ e.message

/-- Claim C10 (confirmed): on entries carrying the store's declared
roles (the pydantic Literal "user" | "assistant", which is never the
empty string), the compactor returns one string with one line per
retained entry in the spec's `role: message` /
`role (tool_used: X): message` format, retaining exactly the entries
with a non-empty message; it is a pure function by construction. -/
theorem C10_compact_history (entries : List ChatHistory)
    (h : ∀ e ∈ entries, e.role = "user" ∨ e.role = "assistant") :
    create_compact_chat_history entries =
      String.intercalate "\n"
        ((entries.filter (fun e => e.message ≠ "")).map specHistoryLine) := by
  unfold create_compact_chat_history
  congr 1
  induction entries with
  | nil => rfl
  | cons e rest ih =>
    have he := h e (List.mem_cons_self e rest)
    have hrest : ∀ x ∈ rest, x.role = "user" ∨ x.role = "assistant" :=
      fun x hx => h x (List.mem_cons_of_mem e hx)
    by_cases hm : e.message = ""
    · have hcond : ¬((e.role = "user" ∨ e.role = "assistant") ∧ e.message ≠ "") := by
        simp [hm]
      simp [compactLines, hcond, hm, ih hrest]
    · have hcond : (e.role = "user" ∨ e.role = "assistant") ∧ e.message ≠ "" := ⟨he, hm⟩
      simp [compactLines, hcond, hm, ih hrest, specHistoryLine]

def demoHistory : List ChatHistory :=
  [ { role := "user", message := "hi" },
    { role := "assistant", message := "hello", tool_used := some Route.aging_biomarker_tool },
    { role := "user", message := "" } ]

/-- Witness for C10 at a concrete history. -/
theorem C10_compact_history_witness :
    create_compact_chat_history demoHistory =
      String.intercalate "\n"
        ((demoHistory.filter (fun e => e.message ≠ "")).map specHistoryLine) := by
  exact C10_compact_history demoHistory (by decide)
